import Mathlib

/-!
Shallow embedding of the back-bookmi reservation/payment subsystem.

The definitions below are translated from the JavaScript source:
* `src/src/models/Reservation.js` (status / paymentStatus enums),
* `src/src/controllers/reservationController.js`
  (`getReservation`, `updateReservationStatus`, `updatePaymentStatus`),
* the payment controller (`createPayment`, `paymentWebhook`),
* the PaymentMethod schema hooks and the payment-method controller
  (`addPaymentMethod`, `updatePaymentMethod`, `setDefaultPaymentMethod`,
  `deletePaymentMethod`),
* `src/src/middleware/error.js` (status-code mapping of thrown errors) and
  the `authorize` role middleware of `src/src/middleware/auth.js`.

Mongo ObjectIds are modelled as `String` (the code always compares them via
`toString()` equality).  Fields of the records that no modelled operation
reads or writes (event date, times, location, card details, notification
message text, timestamps, the generated payment `reference`) are omitted;
every field an operation branches on or assigns is kept.
-/

namespace Bookmi

/-- Reservation `status` enum of Reservation.js. -/
inductive RStatus
  | pending
  | confirmed
  | completed
  | cancelled
deriving DecidableEq, Repr

/-- Reservation `paymentStatus` enum of Reservation.js.  The source value
`'partial'` is modelled by the constructor `part`. -/
inductive PayStatus
  | pending
  | paid
  | failed
  | refunded
  | part
deriving DecidableEq, Repr

/-- Payment `status` enum of Payment.js. -/
inductive PStatus
  | pending
  | processing
  | completed
  | failed
  | refunded
deriving DecidableEq, Repr

/-- Payment `paymentType` enum of Payment.js. -/
inductive PaymentType
  | full
  | advance
  | balance
deriving DecidableEq, Repr

/-- User `role` enum of User.js. -/
inductive Role
  | booker
  | artist
  | admin
deriving DecidableEq, BEq, Repr

/-- The authenticated principal `req.user` produced by the `protect`
middleware: the user id, its role, and the optional `booker` / `artist`
ids copied from the token claims (absent when the token has no claim). -/
structure AuthUser where
  id : String
  role : Role
  booker : Option String
  artist : Option String
deriving DecidableEq, Repr

/-- A stored reservation (Reservation.js).  Event-detail fields that no
modelled operation touches are omitted. -/
structure Reservation where
  booker : String
  artistId : String
  status : RStatus
  paymentStatus : PayStatus
  transactionId : String
deriving DecidableEq, Repr

/-- A stored payment (Payment.js).  `reference`, `paymentDetails`, `notes`
and the timestamps are omitted (no modelled operation branches on them). -/
structure Payment where
  reservation : String
  payer : String
  payee : String
  amount : Int
  serviceFee : Int
  totalAmount : Int
  paymentType : PaymentType
  paymentMethod : String
  status : PStatus
  transactionId : String
deriving DecidableEq, Repr

/-- Notifications emitted by the controllers (only the data the claims
talk about: which kind fired and, for status changes, the previous
status recorded with it). -/
inductive Notif
  | statusChange (prev : RStatus)
  | cancelledByBooker
  | payment (action : String)
  | newReservation
deriving DecidableEq, Repr

/-- Errors thrown by controllers: `ErrorResponse(message, statusCode)` or a
runtime `TypeError` (dereference of `undefined`). -/
inductive JsError
  | errorResponse (msg : String) (statusCode : Nat)
  | typeError (msg : String)
deriving DecidableEq, Repr

/-- Status-code mapping of `middleware/error.js`: an `ErrorResponse` keeps
its `statusCode`; a `TypeError` has no `statusCode` and none of the special
names (CastError, ValidationError, JsonWebTokenError, TokenExpiredError)
or code 11000, so it falls through to the generic 500 branch. -/
def errorHandlerStatus : JsError → Nat
  | .errorResponse _ c => c
  | .typeError _ => 500

/-! ## Reservation controller: authorization flags

These mirror the `isBooker` / `isArtist` / `isAuthorized` computations of
`reservationController.js`.  `toString()` equality on ObjectIds becomes
`String` equality. -/

/-- `req.user.role === 'booker' && req.user.booker` and the stringified-id
comparison of `req.user.booker` with `reservation.booker`
(reservationController.js lines 217-227 and 332-342). -/
def bookerOwnerFlag (u : AuthUser) (r : Reservation) : Bool :=
  decide (u.role = .booker) &&
    match u.booker with
    | some b => decide (b = r.booker)
    | none => false

/-- The artist branch of `updateReservationStatus` (lines 344-378): the
token `artist` claim is consulted first; without it, an `/artist/` route
is authorized outright, otherwise the user id is compared with the
reservation's `artistId`. -/
def artistActorFlagUpdate (u : AuthUser) (r : Reservation) (isArtistRoute : Bool) : Bool :=
  decide (u.role = .artist) &&
    match u.artist with
    | some a => decide (a = r.artistId)
    | none => if isArtistRoute then true else decide (u.id = r.artistId)

/-- The artist branch of `getReservation` (lines 229-258): here the
`/artist/` route check comes first and authorizes any artist outright;
only on the other route are the token claim or the user id compared. -/
def artistReadFlag (u : AuthUser) (r : Reservation) (isArtistRoute : Bool) : Bool :=
  decide (u.role = .artist) &&
    (if isArtistRoute then true
     else
       match u.artist with
       | some a => decide (a = r.artistId)
       | none => decide (u.id = r.artistId))

/-! ## GET /reservations/:id and GET /reservations/artist/:id -/

/-- The two route variants that dispatch to `getReservation`
(routes file: `router.get('/:id', authorize(['booker']), getReservation)`
and `router.get('/artist/:id', authorize(['artist']), getReservation)`). -/
inductive ReadRoute
  | generic
  | artistVariant
deriving DecidableEq, Repr

/-- The role each route's `authorize([...])` middleware admits. -/
def routeAllowsRole : ReadRoute → Role → Bool
  | .generic, role => decide (role = .booker)
  | .artistVariant, role => decide (role = .artist)

/-- `getReservation` controller body: 404 when the reservation is absent,
200 when the booker-owner or artist check authorizes, 403 otherwise. -/
def getReservationCtrl (u : AuthUser) (isArtistRoute : Bool)
    (findRes : Option Reservation) : Nat :=
  match findRes with
  | none => 404
  | some r =>
    if bookerOwnerFlag u r || artistReadFlag u r isArtistRoute then 200 else 403

/-- Route middleware (`authorize`, 403 on a role mismatch) composed with
the controller; the controller sees `isArtistRoute` exactly when the URL
contains `/artist/`, i.e. on the artist variant. -/
def getReservationEndpoint (route : ReadRoute) (u : AuthUser)
    (findRes : Option Reservation) : Nat :=
  if routeAllowsRole route u.role then
    getReservationCtrl u (decide (route = .artistVariant)) findRes
  else 403

/-! ## PATCH /reservations/:id/status -/

/-- The status strings `['pending','confirmed','completed','cancelled']`
accepted by the validation of `updateReservationStatus`; identical to the
Reservation schema enum. -/
def rstatusOfString : String → Option RStatus := fun s =>
  if s = "pending" then some .pending
  else if s = "confirmed" then some .confirmed
  else if s = "completed" then some .completed
  else if s = "cancelled" then some .cancelled
  else none

/-- Outcome of `updateReservationStatus`: HTTP code, the stored
reservation afterwards (`none` if it did not exist), and the
notifications dispatched. -/
structure URSResult where
  code : Nat
  store : Option Reservation
  notifs : List Notif
deriving DecidableEq, Repr

/-- `updateReservationStatus` (reservationController.js lines 289-458):
validate the target status, find the reservation, compute the
`isBooker` / `isArtist` flags, apply the business rules, then write the
new status (the current status is never inspected) and notify. -/
def updateReservationStatus (u : AuthUser) (isArtistRoute : Bool)
    (statusStr : Option String) (findRes : Option Reservation) : URSResult :=
  match statusStr with
  | none => ⟨400, findRes, []⟩
  | some str =>
    match rstatusOfString str with
    | none => ⟨400, findRes, []⟩
    | some s =>
      match findRes with
      | none => ⟨404, none, []⟩
      | some r =>
        let isBooker := bookerOwnerFlag u r
        let isArtist := artistActorFlagUpdate u r isArtistRoute
        if isBooker ∧ s ≠ .cancelled then ⟨403, some r, []⟩
        else if isArtist ∧ s ∉ [RStatus.confirmed, .completed, .cancelled] then
          ⟨403, some r, []⟩
        else if ¬isBooker ∧ ¬isArtist then ⟨403, some r, []⟩
        else
          let previousStatus := r.status
          let r' := { r with status := s }
          let notifs :=
            if isArtist then [Notif.statusChange previousStatus]
            else if isBooker ∧ s = .cancelled then [Notif.cancelledByBooker]
            else []
          ⟨200, some r', notifs⟩

/-! ## PATCH /reservations/:id/payment -/

/-- The validation list of `updatePaymentStatus`
(`['pending', 'paid', 'failed', 'refunded']`) — note `'partial'` is absent
although the schema enum allows it. -/
def allowedPaymentStatusUpdates : List String :=
  ["pending", "paid", "failed", "refunded"]

/-- The Reservation schema `paymentStatus` enum as strings. -/
def reservationPaymentStatusEnum : List String :=
  ["pending", "paid", "failed", "refunded", "partial"]

/-- Parse a `paymentStatus` string into the schema enum. -/
def payStatusOfString : String → Option PayStatus := fun s =>
  if s = "pending" then some .pending
  else if s = "paid" then some .paid
  else if s = "failed" then some .failed
  else if s = "refunded" then some .refunded
  else if s = "partial" then some .part
  else none

/-- `updatePaymentStatus` body (reservationController.js lines 557-588),
written with `Except` because this controller throws (`asyncHandler`
forwards the exception to the error middleware).  The source validates
the raw string against `allowedPaymentStatusUpdates`; strings outside the
schema enum are also outside that list, so parsing first and checking the
list second rejects exactly the same inputs with the same 400.  The
ownership check `req.user.booker.toString()` dereferences the token's
`booker` claim without a fallback: when the claim is absent this is a
`TypeError` on `undefined`. -/
def updatePaymentStatusCore (u : AuthUser) (paymentStatus : Option String)
    (transactionId : Option String) (findRes : Option Reservation) :
    Except JsError Reservation :=
  match paymentStatus with
  | none => .error (.errorResponse "Statut de paiement invalide" 400)
  | some s =>
    match payStatusOfString s with
    | none => .error (.errorResponse "Statut de paiement invalide" 400)
    | some ps =>
      if s ∉ allowedPaymentStatusUpdates then
        .error (.errorResponse "Statut de paiement invalide" 400)
      else
        match findRes with
        | none => .error (.errorResponse "Reservation non trouvee" 404)
        | some r =>
          match u.booker with
          | none => .error (.typeError "Cannot read properties of undefined")
          | some b =>
            if r.booker ≠ b then
              .error (.errorResponse "Non autorise a modifier cette reservation" 403)
            else
              .ok { r with
                    paymentStatus := ps
                    transactionId :=
                      match transactionId with
                      | some t => if t ≠ "" then t else r.transactionId
                      | none => r.transactionId }

/-- `updatePaymentStatus` endpoint: the thrown error is mapped to a status
by the error middleware; on an error the stored reservation is whatever it
was before (no write precedes any throw). -/
def updatePaymentStatus (u : AuthUser) (paymentStatus : Option String)
    (transactionId : Option String) (findRes : Option Reservation) :
    Nat × Option Reservation :=
  match updatePaymentStatusCore u paymentStatus transactionId findRes with
  | .ok r' => (200, some r')
  | .error e => (errorHandlerStatus e, findRes)

/-! ## POST /payments — createPayment (payment controller) -/

/-- The request body fields `createPayment` destructures, plus the
`totalAmount` a caller may send: the controller never destructures or
reads it (it recomputes `totalAmount` from `amount + serviceFee`). -/
structure CPBody where
  reservationId : String
  amount : Int
  serviceFee : Int
  paymentMethod : String
  paymentType : Option PaymentType
  paymentMethodId : Option String
  totalAmount : Option Int
deriving DecidableEq, Repr

/-- A stored payment method as `createPayment` reads it: its owner and its
`type` (the `details` blob it also copies is not modelled). -/
structure SavedPaymentMethod where
  user : String
  type : String
deriving DecidableEq, Repr

/-- Outcome of `createPayment`: error code, or the stored payment, the
stored reservation afterwards, and the notifications dispatched. -/
inductive CPResult
  | err (code : Nat)
  | ok (payment : Payment) (reservation : Reservation) (notifs : List Notif)
deriving DecidableEq, Repr

/-- The settlement half of `createPayment` (payment controller lines
50-124): build the payment with `totalAmount = Number(amount) +
Number(serviceFee)` and `paymentType || 'full'`, create it `pending`, then
immediately simulate settlement (`status = 'completed'`, generated
transaction id), and — since the status is now completed — update the
reservation: `paymentStatus` becomes `partial` for an advance payment and
`paid` otherwise, a pending reservation becomes confirmed, the
transaction id is copied, and the payment / status-change notifications
fire. -/
def settlePayment (body : CPBody) (bookerId : String) (reservation : Reservation)
    (methodType : String) (simTx : String) : CPResult :=
  let totalAmount := body.amount + body.serviceFee
  let payment : Payment :=
    { reservation := body.reservationId
      payer := bookerId
      payee := reservation.artistId
      amount := body.amount
      serviceFee := body.serviceFee
      totalAmount := totalAmount
      paymentType := body.paymentType.getD .full
      paymentMethod := methodType
      status := .completed
      transactionId := simTx }
  let prevPaymentStatus := reservation.paymentStatus
  let r1 := { reservation with
              paymentStatus :=
                if payment.paymentType = PaymentType.advance then PayStatus.part else .paid }
  let r2 := if r1.status = .pending then { r1 with status := .confirmed } else r1
  let r3 := { r2 with transactionId := simTx }
  let notifs :=
    [Notif.payment "created"] ++
      (if r3.status = .confirmed ∧ prevPaymentStatus ≠ .paid then
        [Notif.statusChange .pending]
      else [])
  .ok payment r3 notifs

/-- `createPayment` (payment controller lines 12-134): 404 when the
reservation is absent; 403 when the acting booker
(`req.user.booker || req.user.id`) does not own it; when a
`paymentMethodId` is supplied, 404 / 403 when the stored method is absent
or owned by someone else, and its `type` overrides the body's
`paymentMethod`; then settle. -/
def createPayment (u : AuthUser) (body : CPBody) (findRes : Option Reservation)
    (findMethod : Option SavedPaymentMethod) (simTx : String) : CPResult :=
  match findRes with
  | none => .err 404
  | some reservation =>
    let bookerId := u.booker.getD u.id
    if reservation.booker ≠ bookerId then .err 403
    else
      match body.paymentMethodId with
      | some _ =>
        match findMethod with
        | none => .err 404
        | some m =>
          if m.user ≠ bookerId then .err 403
          else settlePayment body bookerId reservation m.type simTx
      | none => settlePayment body bookerId reservation body.paymentMethod simTx

/-! ## POST /payments/:id/webhook — paymentWebhook -/

/-- The writes and notifications the webhook performs, in program order. -/
inductive WHEffect
  | savePayment (p : Payment)
  | saveReservation (r : Reservation)
  | notify (n : Notif)
deriving DecidableEq, Repr

/-- `paymentWebhook` (payment controller lines 394-453): 404 when the
payment is absent; otherwise the payment status is overwritten with the
body's status (a truthy `transactionId` is copied) and saved.  When the
incoming status is `completed` and the referenced reservation is found,
its `paymentStatus` is set from the payment's `paymentType`, a pending
reservation is confirmed (emitting a status-change notification before
the save, with the captured previous status), the reservation is saved
and the payment notification (`'confirmed'`) fires.  Nothing guards
against the payment already being completed. -/
def paymentWebhook (status : PStatus) (transactionId : Option String)
    (findPayment : Option Payment) (findRes : Option Reservation) :
    Nat × List WHEffect :=
  match findPayment with
  | none => (404, [])
  | some payment =>
    let p1 := { payment with
                status := status
                transactionId :=
                  match transactionId with
                  | some t => if t ≠ "" then t else payment.transactionId
                  | none => payment.transactionId }
    if status = .completed then
      match findRes with
      | none => (200, [WHEffect.savePayment p1])
      | some reservation =>
        let r1 := { reservation with
                    paymentStatus :=
                      if p1.paymentType = PaymentType.advance then PayStatus.part else .paid }
        if r1.status = .pending then
          let previousStatus := r1.status
          let r2 := { r1 with status := RStatus.confirmed }
          (200,
            [WHEffect.savePayment p1,
             WHEffect.notify (.statusChange previousStatus),
             WHEffect.saveReservation r2,
             WHEffect.notify (.payment "confirmed")])
        else
          (200,
            [WHEffect.savePayment p1,
             WHEffect.saveReservation r1,
             WHEffect.notify (.payment "confirmed")])
    else (200, [WHEffect.savePayment p1])

/-! ## Payment methods: schema hooks and controller

The store of one collection is a `List PMethod` kept in creation order
(`createdAt` ascending: `Date.now` is monotone across requests), so
`.sort('createdAt').findOne` is `List.find?` over it. -/

/-- A stored payment method (PaymentMethod.js); `name` and `details` are
omitted (no modelled branch reads them). -/
structure PMethod where
  id : Nat
  user : String
  userModel : String
  type : String
  isDefault : Bool
deriving DecidableEq, Repr

/-- The `pre('save')` hook: when the document being saved is default,
`updateMany` clears `isDefault` on every other method of the same
`(user, userModel)` (an `updateMany` fires no document hooks). -/
def clearOtherDefaults (l : List PMethod) (d : PMethod) : List PMethod :=
  if d.isDefault then
    l.map fun m =>
      if m.user = d.user ∧ m.userModel = d.userModel ∧ m.id ≠ d.id ∧ m.isDefault then
        { m with isDefault := false }
      else m
  else l

/-- Write the document into the collection (replace by id, or append —
appending keeps creation order). -/
def writeDoc (l : List PMethod) (d : PMethod) : List PMethod :=
  if l.any (fun m => decide (m.id = d.id)) then
    l.map fun m => if m.id = d.id then d else m
  else l ++ [d]

/-- `countDocuments({user, userModel, isDefault: true})`. -/
def defaultCount (l : List PMethod) (user userModel : String) : Nat :=
  (l.filter fun m => m.user = user ∧ m.userModel = userModel ∧ m.isDefault).length

/-- The `post('save')` hook: when the owner has zero default methods,
`findOne(...).sort('createdAt')` picks the earliest-created one and saves
it with `isDefault = true`.  (That inner save's own hooks are no-ops: its
`pre` clears other defaults — there are none — and its `post` then counts
one default.) -/
def promoteEarliest (l : List PMethod) (user userModel : String) : List PMethod :=
  match l.find? (fun m => decide (m.user = user ∧ m.userModel = userModel)) with
  | none => l
  | some f => l.map fun m => if m.id = f.id then { m with isDefault := true } else m

/-- A full mongoose `save` of `d`: `pre('save')`, the write, then
`post('save')`. -/
def mongooseSave (l : List PMethod) (d : PMethod) : List PMethod :=
  let l1 := writeDoc (clearOtherDefaults l d) d
  if defaultCount l1 d.user d.userModel = 0 then
    promoteEarliest l1 d.user d.userModel
  else l1

/-- `addPaymentMethod` (payment-method controller lines 10-48): the new
method is default exactly when the owner had no methods
(`existingCount === 0`), then `create` saves it through the hooks. -/
def addPaymentMethod (l : List PMethod) (userId userModel : String)
    (newId : Nat) (type : String) : Nat × List PMethod :=
  let existingCount :=
    (l.filter fun m => m.user = userId ∧ m.userModel = userModel).length
  let d : PMethod :=
    { id := newId, user := userId, userModel := userModel, type := type
      isDefault := decide (existingCount = 0) }
  (201, mongooseSave l d)

/-- `updatePaymentMethod` (lines 125-162): only `name` / `details` change
(not modelled) and the document is re-saved through the hooks. -/
def updatePaymentMethod (l : List PMethod) (userId : String) (mid : Nat) :
    Nat × List PMethod :=
  match l.find? (fun m => decide (m.id = mid)) with
  | none => (404, l)
  | some m =>
    if m.user ≠ userId then (403, l)
    else (200, mongooseSave l m)

/-- `setDefaultPaymentMethod` (lines 169-202): set `isDefault = true` and
save through the hooks. -/
def setDefaultPaymentMethod (l : List PMethod) (userId : String) (mid : Nat) :
    Nat × List PMethod :=
  match l.find? (fun m => decide (m.id = mid)) with
  | none => (404, l)
  | some m =>
    if m.user ≠ userId then (403, l)
    else (200, mongooseSave l { m with isDefault := true })

/-- `deletePaymentMethod` (lines 209-261): deleting the default is
rejected with 400 when `countDocuments({user, userModel})` is not > 1,
and otherwise removes the document with `document.deleteOne()` — which
runs no `save` hooks, so no promotion happens afterwards despite the
source comment claiming the post-save hook will pick a new default.
A non-default method is deleted directly. -/
def deletePaymentMethod (l : List PMethod) (userId : String) (mid : Nat) :
    Nat × List PMethod :=
  match l.find? (fun m => decide (m.id = mid)) with
  | none => (404, l)
  | some m =>
    if m.user ≠ userId then (403, l)
    else if m.isDefault then
      let count :=
        (l.filter fun x => x.user = userId ∧ x.userModel = m.userModel).length
      if count > 1 then (200, l.filter fun x => x.id ≠ m.id)
      else (400, l)
    else (200, l.filter fun x => x.id ≠ m.id)

/-! ## Claim-level predicates

The spec phrases ownership as stringified-identifier equality; these
predicates state it directly on the model. -/

/-- The acting principal is the reservation's owning booker. -/
def OwningBooker (u : AuthUser) (r : Reservation) : Prop :=
  u.role = .booker ∧ u.booker = some r.booker

/-- The acting principal is the reservation's assigned artist: an artist
whose token claim carries the assigned artist id, or — when the token has
no claim — whose own user id equals the assigned artist id (the
controller's fallback comparison). -/
def AssignedArtist (u : AuthUser) (r : Reservation) : Prop :=
  u.role = .artist ∧
    (u.artist = some r.artistId ∨ (u.artist = none ∧ u.id = r.artistId))

instance (u : AuthUser) (r : Reservation) : Decidable (OwningBooker u r) := by
  unfold OwningBooker; infer_instance

instance (u : AuthUser) (r : Reservation) : Decidable (AssignedArtist u r) := by
  unfold AssignedArtist; infer_instance

/-! ## Helper lemmas about the authorization flags -/

theorem bookerOwnerFlag_of_owning {u : AuthUser} {r : Reservation}
    (h : OwningBooker u r) : bookerOwnerFlag u r = true := by
  obtain ⟨h1, h2⟩ := h
  simp [bookerOwnerFlag, h1, h2]

theorem bookerOwnerFlag_of_artist {u : AuthUser} {r : Reservation}
    (h : u.role = .artist) : bookerOwnerFlag u r = false := by
  simp [bookerOwnerFlag, h]

theorem artistActorFlagUpdate_of_assigned {u : AuthUser} {r : Reservation}
    (h : AssignedArtist u r) (b : Bool) : artistActorFlagUpdate u r b = true := by
  obtain ⟨h1, h2⟩ := h
  rcases h2 with h2 | ⟨h2, h3⟩
  · simp [artistActorFlagUpdate, h1, h2]
  · cases b <;> simp [artistActorFlagUpdate, h1, h2, h3]

theorem artistActorFlagUpdate_of_booker {u : AuthUser} {r : Reservation}
    (h : u.role = .booker) (b : Bool) : artistActorFlagUpdate u r b = false := by
  simp [artistActorFlagUpdate, h]

/-! ## Claim theorems -/

/-- Claim C2: for a status-update request on an existing reservation with a
valid target status, the owning booker is rejected with 403 — reservation
unchanged, no notification — for every target other than `cancelled`, and
the assigned artist is rejected the same way for every target outside
`{confirmed, completed, cancelled}`. -/
theorem c2_status_update_actor_restrictions
    (u : AuthUser) (r : Reservation) (str : String) (s : RStatus) (route : Bool)
    (hs : rstatusOfString str = some s) :
    (OwningBooker u r → s ≠ .cancelled →
      updateReservationStatus u route (some str) (some r) = ⟨403, some r, []⟩) ∧
    (AssignedArtist u r → s ∉ [RStatus.confirmed, .completed, .cancelled] →
      updateReservationStatus u route (some str) (some r) = ⟨403, some r, []⟩) := by
  constructor
  · intro hb hne
    have hf := bookerOwnerFlag_of_owning hb
    simp [updateReservationStatus, hs, hf, hne]
  · intro ha hmem
    have hf := artistActorFlagUpdate_of_assigned ha route
    have hb : bookerOwnerFlag u r = false := bookerOwnerFlag_of_artist ha.1
    simp [updateReservationStatus, hs, hf, hb, hmem]

/-- Witness for C2 at concrete inputs: the owning booker asking for
`confirmed` and the assigned artist asking for `pending` are both
rejected with 403 and no change. -/
theorem c2_status_update_actor_restrictions_witness :
    (OwningBooker ⟨"U3", .booker, some "B1", none⟩ ⟨"B1", "A1", .pending, .pending, ""⟩ →
      RStatus.confirmed ≠ .cancelled →
      updateReservationStatus ⟨"U3", .booker, some "B1", none⟩ false (some "confirmed")
          (some ⟨"B1", "A1", .pending, .pending, ""⟩) =
        ⟨403, some ⟨"B1", "A1", .pending, .pending, ""⟩, []⟩) ∧
    (AssignedArtist ⟨"U1", .artist, none, some "A1"⟩ ⟨"B1", "A1", .pending, .pending, ""⟩ →
      RStatus.pending ∉ [RStatus.confirmed, .completed, .cancelled] →
      updateReservationStatus ⟨"U1", .artist, none, some "A1"⟩ false (some "pending")
          (some ⟨"B1", "A1", .pending, .pending, ""⟩) =
        ⟨403, some ⟨"B1", "A1", .pending, .pending, ""⟩, []⟩) :=
  ⟨(c2_status_update_actor_restrictions ⟨"U3", .booker, some "B1", none⟩
      ⟨"B1", "A1", .pending, .pending, ""⟩ "confirmed" .confirmed false (by decide)).1,
   (c2_status_update_actor_restrictions ⟨"U1", .artist, none, some "A1"⟩
      ⟨"B1", "A1", .pending, .pending, ""⟩ "pending" .pending false (by decide)).2⟩

/-- Counterexample to claim C3: the assigned artist's request to cancel a
reservation whose current status is `completed` succeeds (200) and
changes the stored status to `cancelled`, so `completed` is not
terminal. -/
theorem c3_counterexample_completed_not_terminal :
    AssignedArtist ⟨"U1", .artist, none, some "A1"⟩ ⟨"B1", "A1", .completed, .paid, "tx0"⟩ ∧
    updateReservationStatus ⟨"U1", .artist, none, some "A1"⟩ false (some "cancelled")
        (some ⟨"B1", "A1", .completed, .paid, "tx0"⟩) =
      ⟨200, some ⟨"B1", "A1", .cancelled, .paid, "tx0"⟩, [.statusChange .completed]⟩ := by
  decide

/-- Amended C3: `updateReservationStatus` never inspects the current
status — a request by the assigned artist with any valid target in
`{confirmed, completed, cancelled}` succeeds from every current status
(including `completed` and `cancelled`), overwriting the status with the
target; no state is terminal. -/
theorem c3_amended_no_terminal_states
    (u : AuthUser) (r : Reservation) (str : String) (s : RStatus) (route : Bool)
    (hs : rstatusOfString str = some s)
    (ha : AssignedArtist u r)
    (hmem : s ∈ [RStatus.confirmed, .completed, .cancelled]) :
    updateReservationStatus u route (some str) (some r) =
      ⟨200, some { r with status := s }, [.statusChange r.status]⟩ := by
  have hf := artistActorFlagUpdate_of_assigned ha route
  have hb : bookerOwnerFlag u r = false := bookerOwnerFlag_of_artist ha.1
  simp only [List.mem_cons, List.not_mem_nil, or_false] at hmem
  rcases hmem with rfl | rfl | rfl <;>
    simp [updateReservationStatus, hs, hf, hb]

/-- Witness for amended C3: the assigned artist cancels a `cancelled`
reservation — the update still succeeds and rewrites the status. -/
theorem c3_amended_no_terminal_states_witness :
    updateReservationStatus ⟨"U1", .artist, none, some "A1"⟩ false (some "confirmed")
        (some ⟨"B1", "A1", .cancelled, .paid, "tx0"⟩) =
      ⟨200, some ⟨"B1", "A1", .confirmed, .paid, "tx0"⟩, [.statusChange .cancelled]⟩ :=
  c3_amended_no_terminal_states ⟨"U1", .artist, none, some "A1"⟩
    ⟨"B1", "A1", .cancelled, .paid, "tx0"⟩ "confirmed" .confirmed false
    (by decide) (by decide) (by decide)

/-- Counterexample to claim C4: an authenticated artist who is neither
the owning booker nor the assigned artist of the reservation receives
200, not 403, on the `/reservations/artist/:id` route variant. -/
theorem c4_counterexample_unassigned_artist_read :
    ¬ OwningBooker ⟨"U2", .artist, none, some "A2"⟩ ⟨"B1", "A1", .pending, .pending, ""⟩ ∧
    ¬ AssignedArtist ⟨"U2", .artist, none, some "A2"⟩ ⟨"B1", "A1", .pending, .pending, ""⟩ ∧
    getReservationEndpoint .artistVariant ⟨"U2", .artist, none, some "A2"⟩
        (some ⟨"B1", "A1", .pending, .pending, ""⟩) = 200 := by
  decide

/-- Amended C4: on the generic `GET /reservations/:id` route a principal
that is neither the owning booker nor the assigned artist is rejected
with 403 (artists are already rejected by the route's role middleware);
but on the `GET /reservations/artist/:id` variant every authenticated
artist is authorized outright — a non-assigned artist reads the
reservation with 200 there. -/
theorem c4_amended_read_authorization
    (u : AuthUser) (r : Reservation)
    (hnb : ¬ OwningBooker u r) (_hna : ¬ AssignedArtist u r) :
    getReservationEndpoint .generic u (some r) = 403 ∧
    (u.role = .artist →
      getReservationEndpoint .artistVariant u (some r) = 200) := by
  constructor
  · rcases hrole : u.role with _ | _ | _
    · have h2 : u.booker ≠ some r.booker := fun h => hnb ⟨hrole, h⟩
      have hbf : bookerOwnerFlag u r = false := by
        rcases hub : u.booker with _ | b
        · simp [bookerOwnerFlag, hub]
        · have : b ≠ r.booker := fun h => h2 (by simp [hub, h])
          simp [bookerOwnerFlag, hub, this]
      have haf : artistReadFlag u r false = false := by
        simp [artistReadFlag, hrole]
      simp [getReservationEndpoint, routeAllowsRole, hrole, getReservationCtrl,
        hbf, haf]
    · simp [getReservationEndpoint, routeAllowsRole, hrole]
    · simp [getReservationEndpoint, routeAllowsRole, hrole]
  · intro hrole
    have haf : artistReadFlag u r true = true := by
      simp [artistReadFlag, hrole]
    simp [getReservationEndpoint, routeAllowsRole, hrole, getReservationCtrl, haf]

/-- Witness for amended C4: a second booker (not the owner) gets 403 on
the generic route; a non-assigned artist gets 200 on the artist
variant. -/
theorem c4_amended_read_authorization_witness :
    (getReservationEndpoint .generic ⟨"U4", .booker, some "B2", none⟩
        (some ⟨"B1", "A1", .pending, .pending, ""⟩) = 403 ∧
      (Role.booker = Role.artist →
        getReservationEndpoint .artistVariant ⟨"U4", .booker, some "B2", none⟩
          (some ⟨"B1", "A1", .pending, .pending, ""⟩) = 200)) ∧
    (getReservationEndpoint .generic ⟨"U2", .artist, none, some "A2"⟩
        (some ⟨"B1", "A1", .pending, .pending, ""⟩) = 403 ∧
      (Role.artist = Role.artist →
        getReservationEndpoint .artistVariant ⟨"U2", .artist, none, some "A2"⟩
          (some ⟨"B1", "A1", .pending, .pending, ""⟩) = 200)) :=
  ⟨c4_amended_read_authorization ⟨"U4", .booker, some "B2", none⟩
      ⟨"B1", "A1", .pending, .pending, ""⟩ (by decide) (by decide),
   c4_amended_read_authorization ⟨"U2", .artist, none, some "A2"⟩
      ⟨"B1", "A1", .pending, .pending, ""⟩ (by decide) (by decide)⟩

/-! ## Payment engine lemmas -/

theorem settlePayment_ok_fields
    {body : CPBody} {bookerId : String} {reservation : Reservation}
    {methodType simTx : String} {pay : Payment} {r' : Reservation} {ns : List Notif}
    (h : settlePayment body bookerId reservation methodType simTx = .ok pay r' ns) :
    pay.totalAmount = body.amount + body.serviceFee ∧
    r'.paymentStatus = (if pay.paymentType = PaymentType.advance then PayStatus.part else .paid) ∧
    (reservation.status = .pending → r'.status = .confirmed) := by
  simp only [settlePayment, CPResult.ok.injEq] at h
  obtain ⟨hp, hr, _⟩ := h
  subst hp
  subst hr
  refine ⟨rfl, ?_, ?_⟩
  · by_cases hst : reservation.status = .pending <;> simp [hst]
  · intro hst
    simp [hst]

theorem createPayment_ok_settle
    {u : AuthUser} {body : CPBody} {findRes : Option Reservation}
    {fm : Option SavedPaymentMethod} {tx : String}
    {pay : Payment} {r' : Reservation} {ns : List Notif}
    (h : createPayment u body findRes fm tx = .ok pay r' ns) :
    ∃ (reservation : Reservation) (methodType : String),
      findRes = some reservation ∧
      settlePayment body (u.booker.getD u.id) reservation methodType tx =
        .ok pay r' ns := by
  rcases findRes with _ | reservation
  · simp [createPayment] at h
  · rcases hpm : body.paymentMethodId with _ | pid
    · simp only [createPayment, hpm] at h
      split at h <;>
        first
        | exact ⟨reservation, body.paymentMethod, rfl, h⟩
        | simp at h
    · rcases fm with _ | m
      · simp only [createPayment, hpm] at h
        split at h <;> simp at h
      · simp only [createPayment, hpm] at h
        split at h <;>
          first
          | (split at h <;>
              first
              | exact ⟨reservation, m.type, rfl, h⟩
              | simp at h)
          | simp at h

/-- Claim C6: every payment stored by `createPayment` has
`totalAmount = amount + serviceFee`, computed server-side; the
caller-supplied `totalAmount` field of the body is never read (the body
is universally quantified over it). -/
theorem c6_totalAmount_computed_server_side
    (u : AuthUser) (body : CPBody) (findRes : Option Reservation)
    (fm : Option SavedPaymentMethod) (tx : String)
    (pay : Payment) (r' : Reservation) (ns : List Notif)
    (h : createPayment u body findRes fm tx = .ok pay r' ns) :
    pay.totalAmount = body.amount + body.serviceFee := by
  obtain ⟨res, mt, _, hs⟩ := createPayment_ok_settle h
  exact (settlePayment_ok_fields hs).1

/-- Witness for C6: a body carrying a bogus caller `totalAmount := 9999`
still yields a stored `totalAmount` of `500 + 25`. -/
theorem c6_totalAmount_computed_server_side_witness :
    (Payment.mk "R1" "B1" "A1" 500 25 525 .full "mtn" .completed "sim").totalAmount =
      (CPBody.mk "R1" 500 25 "mtn" (some .full) none (some 9999)).amount +
        (CPBody.mk "R1" 500 25 "mtn" (some .full) none (some 9999)).serviceFee :=
  c6_totalAmount_computed_server_side
    ⟨"U3", .booker, some "B1", none⟩
    ⟨"R1", 500, 25, "mtn", some .full, none, some 9999⟩
    (some ⟨"B1", "A1", .pending, .pending, ""⟩) none "sim"
    ⟨"R1", "B1", "A1", 500, 25, 525, .full, "mtn", .completed, "sim"⟩
    ⟨"B1", "A1", .confirmed, .paid, "sim"⟩
    [Notif.payment "created", .statusChange .pending]
    (by decide)

/-- Claim C1: on every transition of a payment to `completed` — the
immediate simulated settlement of `createPayment`, and the webhook path
when the referenced reservation exists — the reservation's
`paymentStatus` is set to `partial` when the payment's `paymentType` is
`advance` and to `paid` otherwise, and a reservation whose status was
`pending` at that moment becomes `confirmed`. -/
theorem c1_payment_completion_updates_reservation :
    (∀ (u : AuthUser) (body : CPBody) (r : Reservation)
        (fm : Option SavedPaymentMethod) (tx : String)
        (pay : Payment) (r' : Reservation) (ns : List Notif),
      createPayment u body (some r) fm tx = .ok pay r' ns →
        r'.paymentStatus =
          (if pay.paymentType = PaymentType.advance then PayStatus.part else .paid) ∧
        (r.status = .pending → r'.status = .confirmed)) ∧
    (∀ (tx : Option String) (p : Payment) (r : Reservation),
      (∃ r'', WHEffect.saveReservation r'' ∈
          (paymentWebhook .completed tx (some p) (some r)).2) ∧
      ∀ r'', WHEffect.saveReservation r'' ∈
          (paymentWebhook .completed tx (some p) (some r)).2 →
        r''.paymentStatus =
          (if p.paymentType = PaymentType.advance then PayStatus.part else .paid) ∧
        (r.status = .pending → r''.status = .confirmed)) := by
  constructor
  · intro u body r fm tx pay r' ns h
    obtain ⟨res, mt, hres, hs⟩ := createPayment_ok_settle h
    obtain rfl : r = res := by injection hres
    exact ⟨(settlePayment_ok_fields hs).2.1, (settlePayment_ok_fields hs).2.2⟩
  · intro tx p r
    by_cases hst : r.status = .pending
    · constructor
      · exact ⟨{ r with
            paymentStatus :=
              if p.paymentType = PaymentType.advance then PayStatus.part else .paid
            status := .confirmed },
          by simp [paymentWebhook, hst]⟩
      · intro r'' hmem
        simp [paymentWebhook, hst] at hmem
        subst hmem
        simp
    · constructor
      · exact ⟨{ r with
            paymentStatus :=
              if p.paymentType = PaymentType.advance then PayStatus.part else .paid },
          by simp [paymentWebhook, hst]⟩
      · intro r'' hmem
        simp [paymentWebhook, hst] at hmem
        subst hmem
        simp [hst]

/-- Witness for C1 at concrete inputs: a full payment of 500+25 on a
pending reservation marks it `paid` and `confirmed` (both on the
settlement path and for the webhook's reservation save). -/
theorem c1_payment_completion_updates_reservation_witness :
    ((Reservation.mk "B1" "A1" .confirmed .paid "sim").paymentStatus =
        (if (Payment.mk "R1" "B1" "A1" 500 25 525 .full "mtn" .completed "sim").paymentType =
            PaymentType.advance then PayStatus.part else .paid) ∧
      ((Reservation.mk "B1" "A1" .pending .pending "").status = .pending →
        (Reservation.mk "B1" "A1" .confirmed .paid "sim").status = .confirmed)) ∧
    ((∃ r'', WHEffect.saveReservation r'' ∈
        (paymentWebhook .completed none
          (some ⟨"R1", "B1", "A1", 500, 25, 525, .full, "mtn", .completed, "tx1"⟩)
          (some ⟨"B1", "A1", .pending, .pending, ""⟩)).2) ∧
      ∀ r'', WHEffect.saveReservation r'' ∈
          (paymentWebhook .completed none
            (some ⟨"R1", "B1", "A1", 500, 25, 525, .full, "mtn", .completed, "tx1"⟩)
            (some ⟨"B1", "A1", .pending, .pending, ""⟩)).2 →
        r''.paymentStatus =
          (if (Payment.mk "R1" "B1" "A1" 500 25 525 .full "mtn" .completed "tx1").paymentType =
              PaymentType.advance then PayStatus.part else .paid) ∧
        ((Reservation.mk "B1" "A1" .pending .pending "").status = .pending →
          r''.status = .confirmed)) :=
  ⟨c1_payment_completion_updates_reservation.1
      ⟨"U3", .booker, some "B1", none⟩
      ⟨"R1", 500, 25, "mtn", some .full, none, some 9999⟩
      ⟨"B1", "A1", .pending, .pending, ""⟩ none "sim"
      ⟨"R1", "B1", "A1", 500, 25, 525, .full, "mtn", .completed, "sim"⟩
      ⟨"B1", "A1", .confirmed, .paid, "sim"⟩
      [Notif.payment "created", .statusChange .pending]
      (by decide),
   c1_payment_completion_updates_reservation.2 none
      ⟨"R1", "B1", "A1", 500, 25, 525, .full, "mtn", .completed, "tx1"⟩
      ⟨"B1", "A1", .pending, .pending, ""⟩⟩

/-- Claim C8: the webhook is not idempotent — delivering
`status=completed` for a payment that is already `completed` (its
reservation already `confirmed`/`paid` from the first delivery) again
saves the reservation and again fires the payment notification: no guard
makes the second delivery a no-op. -/
theorem c8_webhook_not_idempotent :
    (paymentWebhook .completed none
        (some ⟨"R1", "B1", "A1", 500, 25, 525, .full, "mtn", .completed, "tx1"⟩)
        (some ⟨"B1", "A1", .confirmed, .paid, "tx1"⟩)).1 = 200 ∧
    ((paymentWebhook .completed none
        (some ⟨"R1", "B1", "A1", 500, 25, 525, .full, "mtn", .completed, "tx1"⟩)
        (some ⟨"B1", "A1", .confirmed, .paid, "tx1"⟩)).2.any fun e =>
          match e with
          | .saveReservation _ => true
          | _ => false) = true ∧
    WHEffect.notify (.payment "confirmed") ∈
      (paymentWebhook .completed none
        (some ⟨"R1", "B1", "A1", 500, 25, 525, .full, "mtn", .completed, "tx1"⟩)
        (some ⟨"B1", "A1", .confirmed, .paid, "tx1"⟩)).2 := by
  decide

/-! ## updatePaymentStatus lemmas -/

theorem ups_code_valid (u : AuthUser) (tx : Option String) (r : Reservation)
    (s : String) (ps : PayStatus) (hp : payStatusOfString s = some ps)
    (hin : s ∈ allowedPaymentStatusUpdates) :
    (updatePaymentStatus u (some s) tx (some r)).1 ≠ 400 := by
  rcases hub : u.booker with _ | b
  · simp [updatePaymentStatus, updatePaymentStatusCore, hp, hin, hub, errorHandlerStatus]
  · by_cases hb : r.booker = b <;>
      simp [updatePaymentStatus, updatePaymentStatusCore, hp, hin, hub, hb,
        errorHandlerStatus]

theorem updatePaymentStatus_code_of_allowed {s : String}
    (hmem : s ∈ allowedPaymentStatusUpdates) (u : AuthUser) (tx : Option String)
    (r : Reservation) : (updatePaymentStatus u (some s) tx (some r)).1 ≠ 400 := by
  have hmem' := hmem
  simp only [allowedPaymentStatusUpdates, List.mem_cons, List.not_mem_nil,
    or_false] at hmem'
  rcases hmem' with rfl | rfl | rfl | rfl
  · exact ups_code_valid u tx r "pending" .pending (by decide) hmem
  · exact ups_code_valid u tx r "paid" .paid (by decide) hmem
  · exact ups_code_valid u tx r "failed" .failed (by decide) hmem
  · exact ups_code_valid u tx r "refunded" .refunded (by decide) hmem

theorem ups_missing_booker (u : AuthUser) (tx : Option String) (r : Reservation)
    (s : String) (ps : PayStatus) (hp : payStatusOfString s = some ps)
    (hin : s ∈ allowedPaymentStatusUpdates) (hu : u.booker = none) :
    updatePaymentStatus u (some s) tx (some r) = (500, some r) := by
  simp [updatePaymentStatus, updatePaymentStatusCore, hp, hin, hu, errorHandlerStatus]

/-- Claim C9: the direct payment-status update accepts exactly
`{pending, paid, failed, refunded}` — a request carrying `'partial'`
(a value the schema enum itself allows for storage) is rejected with 400
and the reservation is unchanged, and 400 arises precisely when the
supplied string is outside that list. -/
theorem c9_payment_status_validation :
    (∀ (u : AuthUser) (tx : Option String) (r : Reservation),
      updatePaymentStatus u (some "partial") tx (some r) = (400, some r)) ∧
    "partial" ∈ reservationPaymentStatusEnum ∧
    (∀ (u : AuthUser) (tx : Option String) (r : Reservation) (s : String),
      (updatePaymentStatus u (some s) tx (some r)).1 = 400 ↔
        s ∉ allowedPaymentStatusUpdates) := by
  refine ⟨?_, by decide, ?_⟩
  · intro u tx r
    have hp : payStatusOfString "partial" = some .part := by decide
    have hn : "partial" ∉ allowedPaymentStatusUpdates := by decide
    simp [updatePaymentStatus, updatePaymentStatusCore, hp, hn, errorHandlerStatus]
  · intro u tx r s
    constructor
    · intro h400
      by_contra hmem
      exact updatePaymentStatus_code_of_allowed hmem u tx r h400
    · intro hnot
      rcases hps : payStatusOfString s with _ | ps
      · simp [updatePaymentStatus, updatePaymentStatusCore, hps, errorHandlerStatus]
      · simp [updatePaymentStatus, updatePaymentStatusCore, hps, hnot,
          errorHandlerStatus]

/-- Witness for C9: a concrete `'partial'` request is rejected with 400
leaving the reservation unchanged, and a concrete `'paid'` request does
not produce 400. -/
theorem c9_payment_status_validation_witness :
    updatePaymentStatus ⟨"U3", .booker, some "B1", none⟩ (some "partial") none
        (some ⟨"B1", "A1", .pending, .pending, ""⟩) =
      (400, some ⟨"B1", "A1", .pending, .pending, ""⟩) ∧
    ((updatePaymentStatus ⟨"U3", .booker, some "B1", none⟩ (some "paid") none
        (some ⟨"B1", "A1", .pending, .pending, ""⟩)).1 = 400 ↔
      "paid" ∉ allowedPaymentStatusUpdates) :=
  ⟨c9_payment_status_validation.1 ⟨"U3", .booker, some "B1", none⟩ none
      ⟨"B1", "A1", .pending, .pending, ""⟩,
   c9_payment_status_validation.2.2 ⟨"U3", .booker, some "B1", none⟩ none
      ⟨"B1", "A1", .pending, .pending, ""⟩ "paid"⟩

/-- Claim C10: with a valid `paymentStatus` and an existing reservation,
a principal whose token carries no `booker` claim makes the ownership
check dereference `undefined`: the `TypeError` is mapped to 500 by the
error middleware — not 403 and not a 4xx identity error — and the
reservation is unchanged. -/
theorem c10_missing_booker_claim_internal_error
    (r : Reservation) (tx : Option String) (s : String)
    (hmem : s ∈ allowedPaymentStatusUpdates)
    (u : AuthUser) (hu : u.booker = none) :
    updatePaymentStatus u (some s) tx (some r) = (500, some r) := by
  have hmem' := hmem
  simp only [allowedPaymentStatusUpdates, List.mem_cons, List.not_mem_nil,
    or_false] at hmem'
  rcases hmem' with rfl | rfl | rfl | rfl
  · exact ups_missing_booker u tx r "pending" .pending (by decide) hmem hu
  · exact ups_missing_booker u tx r "paid" .paid (by decide) hmem hu
  · exact ups_missing_booker u tx r "failed" .failed (by decide) hmem hu
  · exact ups_missing_booker u tx r "refunded" .refunded (by decide) hmem hu

/-- Witness for C10: a booker-role user without a `booker` claim sending
`'paid'` gets 500 and the reservation is untouched. -/
theorem c10_missing_booker_claim_internal_error_witness :
    updatePaymentStatus ⟨"U3", .booker, none, none⟩ (some "paid") none
        (some ⟨"B1", "A1", .pending, .pending, ""⟩) =
      (500, some ⟨"B1", "A1", .pending, .pending, ""⟩) :=
  c10_missing_booker_claim_internal_error ⟨"B1", "A1", .pending, .pending, ""⟩
    none "paid" (by decide) ⟨"U3", .booker, none, none⟩ rfl

/-- Claim C5 (code bug): create two methods for one owner — the first is
automatically default — then delete the default.  `document.deleteOne()`
runs no save hooks, so contrary to the deletion code's own comment (and
the schema's stated intent) no survivor is promoted: the owner is left
with one method and zero defaults, violating the exactly-one-default
invariant. -/
theorem c5_delete_default_skips_promotion :
    deletePaymentMethod
        (addPaymentMethod
          (addPaymentMethod [] "B1" "Booker" 1 "visa").2 "B1" "Booker" 2 "mtn").2
        "B1" 1 =
      (200, [⟨2, "B1", "Booker", "mtn", false⟩]) ∧
    defaultCount [PMethod.mk 2 "B1" "Booker" "mtn" false] "B1" "Booker" = 0 := by
  decide

/-- Counterexample to claim C7: starting from two methods (the first
default), deleting the default leaves a sole non-default survivor; the
store then holds exactly one method for the owner, yet deleting it
succeeds (200) and empties the store instead of being rejected. -/
theorem c7_counterexample_sole_method_delete_succeeds :
    ((deletePaymentMethod
        (addPaymentMethod
          (addPaymentMethod [] "B1" "Booker" 1 "visa").2 "B1" "Booker" 2 "mtn").2
        "B1" 1).2.length = 1) ∧
    deletePaymentMethod
        (deletePaymentMethod
          (addPaymentMethod
            (addPaymentMethod [] "B1" "Booker" 1 "visa").2 "B1" "Booker" 2 "mtn").2
          "B1" 1).2
        "B1" 2 =
      (200, []) := by
  decide

/-- Amended C7: deleting the owner's only payment method is rejected
(HTTP 400 — the spec's `Conflict`) with the store unchanged only when
that sole method is marked default; and deleting a non-default method
succeeds (200) and leaves every other method — in particular the current
default and its `isDefault` flag — stored unchanged. -/
theorem c7_amended_delete_guard
    (l : List PMethod) (uid : String) (mid : Nat) (m : PMethod) :
    (l.find? (fun x => decide (x.id = mid)) = some m → m.user = uid →
      m.isDefault = true →
      (l.filter fun x => x.user = uid ∧ x.userModel = m.userModel).length = 1 →
      deletePaymentMethod l uid mid = (400, l)) ∧
    (l.find? (fun x => decide (x.id = mid)) = some m → m.user = uid →
      m.isDefault = false →
      (deletePaymentMethod l uid mid).1 = 200 ∧
      ∀ x ∈ l, x.id ≠ m.id → x ∈ (deletePaymentMethod l uid mid).2) := by
  constructor
  · intro hf hu hd hc
    simp only [Bool.decide_and] at hc
    simp [deletePaymentMethod, hf, hu, hd, hc]
  · intro hf hu hd
    refine ⟨by simp [deletePaymentMethod, hf, hu, hd], ?_⟩
    intro x hx hne
    simp [deletePaymentMethod, hf, hu, hd, List.mem_filter, hx, hne]

/-- Witness for amended C7 at concrete stores: the sole default method
cannot be deleted (400, store unchanged); a non-default method among two
is deleted with 200 and the default survivor is kept. -/
theorem c7_amended_delete_guard_witness :
    deletePaymentMethod [⟨1, "B1", "Booker", "visa", true⟩] "B1" 1 =
      (400, [⟨1, "B1", "Booker", "visa", true⟩]) ∧
    ((deletePaymentMethod
        [⟨1, "B1", "Booker", "visa", true⟩, ⟨2, "B1", "Booker", "mtn", false⟩]
        "B1" 2).1 = 200 ∧
      ∀ x ∈ [PMethod.mk 1 "B1" "Booker" "visa" true,
             PMethod.mk 2 "B1" "Booker" "mtn" false],
        x.id ≠ (PMethod.mk 2 "B1" "Booker" "mtn" false).id →
          x ∈ (deletePaymentMethod
            [⟨1, "B1", "Booker", "visa", true⟩, ⟨2, "B1", "Booker", "mtn", false⟩]
            "B1" 2).2) :=
  ⟨(c7_amended_delete_guard [⟨1, "B1", "Booker", "visa", true⟩] "B1" 1
      ⟨1, "B1", "Booker", "visa", true⟩).1 (by decide) (by decide) (by decide)
      (by decide),
   (c7_amended_delete_guard
      [⟨1, "B1", "Booker", "visa", true⟩, ⟨2, "B1", "Booker", "mtn", false⟩] "B1" 2
      ⟨2, "B1", "Booker", "mtn", false⟩).2 (by decide) (by decide) (by decide)⟩

end Bookmi
